import Mathlib

/-!
# The skeleton wrapper (src/wrapper.c)

The wrapper consists of two C functions, `open_skel` and `destroy_skel`, that
delegate to three entry points of the generated skeleton library:
`main_bpf__open_and_load`, `main_bpf__create_skeleton` and `main_bpf__destroy`.

The library is not part of the wrapper, so it is a parameter of the embedding:
an arbitrary state type together with one state transformer per entry point.
The calls the wrapper makes are observed through a trace that every call
site extends by one event.

Two views of the library are used.  `Lib` is a library all of whose calls
return; `FaultingLib` is a library in which a call may fail to return (the
process dies inside it), which is what can happen when the wrapper hands the
unchecked null handle to `main_bpf__create_skeleton`.  The functions of the
namespace `Faulting` are the same two C functions run against a `FaultingLib`;
on a library whose calls all return they agree with the first view.
-/

namespace Wrapper

set_option linter.unusedVariables false

/-- Machine addresses; a C pointer (`struct main_bpf *`, `void *`) is its address. -/
abbrev Ptr := Nat

/-- The C null pointer. -/
def NULL : Ptr := 0

/-- One event per library entry point, carrying the argument of the call. -/
inductive Call where
  | open_and_load : Call
  | create_skeleton (obj : Ptr) : Call
  | destroy (obj : Ptr) : Call
  deriving DecidableEq, Repr

/-- The skeleton library seen from the wrapper: an arbitrary state `σ` and the
three entry points the wrapper calls.  `main_bpf__open_and_load` yields a handle
(possibly `NULL`), `main_bpf__create_skeleton` takes a handle and yields an
integer status, `main_bpf__destroy` takes a handle and yields nothing. -/
structure Lib (σ : Type) where
  main_bpf__open_and_load : σ → Ptr × σ
  main_bpf__create_skeleton : Ptr → σ → Int × σ
  main_bpf__destroy : Ptr → σ → σ

/-- The state a wrapper function runs in: the state of the library and the
library calls made so far, oldest first. -/
structure World (σ : Type) where
  lib : σ
  trace : List Call

/-- The call site `main_bpf__open_and_load()`: runs the entry point and records the call. -/
def call_open_and_load {σ : Type} (L : Lib σ) (w : World σ) : Ptr × World σ :=
  let r := L.main_bpf__open_and_load w.lib
  (r.1, ⟨r.2, w.trace ++ [Call.open_and_load]⟩)

/-- The call site `main_bpf__create_skeleton(obj)`: runs the entry point and records the call. -/
def call_create_skeleton {σ : Type} (L : Lib σ) (obj : Ptr) (w : World σ) : Int × World σ :=
  let r := L.main_bpf__create_skeleton obj w.lib
  (r.1, ⟨r.2, w.trace ++ [Call.create_skeleton obj]⟩)

/-- The call site `main_bpf__destroy(skel)`: runs the entry point and records the call. -/
def call_destroy {σ : Type} (L : Lib σ) (skel : Ptr) (w : World σ) : World σ :=
  ⟨L.main_bpf__destroy skel w.lib, w.trace ++ [Call.destroy skel]⟩

/-- The function `open_skel` of wrapper.c, statement by statement:
```
    struct main_bpf *obj = NULL;
    obj =  main_bpf__open_and_load();
    main_bpf__create_skeleton(obj);
    return obj;
```
The status of `main_bpf__create_skeleton` is computed and discarded. -/
def open_skel {σ : Type} (L : Lib σ) (w : World σ) : Ptr × World σ :=
  let obj : Ptr := NULL
  let r1 := call_open_and_load L w
  let obj : Ptr := r1.1
  let r2 := call_create_skeleton L obj r1.2
  (obj, r2.2)

/-- The function `destroy_skel` of wrapper.c:
```
    main_bpf__destroy(skel);
``` -/
def destroy_skel {σ : Type} (L : Lib σ) (skel : Ptr) (w : World σ) : World σ :=
  call_destroy L skel w

/-- The handle the library produces when `main_bpf__open_and_load` runs in `w`. -/
def acquired {σ : Type} (L : Lib σ) (w : World σ) : Ptr :=
  (L.main_bpf__open_and_load w.lib).1

/-- The status the library reports when `open_skel` runs in `w`: what
`main_bpf__create_skeleton` yields on the acquired handle, in the library state
left by `main_bpf__open_and_load`. -/
def skeleton_status {σ : Type} (L : Lib σ) (w : World σ) : Int :=
  (L.main_bpf__create_skeleton (acquired L w) (L.main_bpf__open_and_load w.lib).2).1

/-- The library calls made between two states of a run: what `after` has
recorded beyond what `before` had. -/
def calls_made {σ : Type} (before after : World σ) : List Call :=
  after.trace.drop before.trace.length

/-- A library with prescribed outcomes: `main_bpf__open_and_load` yields `h`,
`main_bpf__create_skeleton` yields `status`; its state counts the calls served. -/
def fixedLib (h : Ptr) (status : Int) : Lib Nat :=
  ⟨fun n => (h, n + 1), fun _ n => (status, n + 1), fun _ n => n + 1⟩

/-- The initial state for `fixedLib`: no call served, no call recorded. -/
def startWorld : World Nat := ⟨0, []⟩

/-! ## The same functions when a library call may fail to return -/

/-- The skeleton library when an entry point may fail to return: `none` is a call
inside which the process dies (a store through a null handle, say), `some` is a
call that returns, with its result and the library state it leaves. -/
structure FaultingLib (σ : Type) where
  main_bpf__open_and_load : σ → Option (Ptr × σ)
  main_bpf__create_skeleton : Ptr → σ → Option (Int × σ)
  main_bpf__destroy : Ptr → σ → Option σ

/-- How a run ends: it returns a value in a state, or it dies inside a library
call, leaving only the calls made up to and including that one. -/
inductive Outcome (α σ : Type) where
  | returned (val : α) (w : World σ) : Outcome α σ
  | died (trace : List Call) : Outcome α σ

/-- The value a run returns, if it returns. -/
def Outcome.value {α σ : Type} : Outcome α σ → Option α
  | Outcome.returned val _ => some val
  | Outcome.died _ => none

/-- The library calls recorded when the run ends, oldest first. -/
def Outcome.trace {α σ : Type} : Outcome α σ → List Call
  | Outcome.returned _ w => w.trace
  | Outcome.died t => t

/-- Sequencing of C statements: what follows runs only if what precedes returned. -/
def Outcome.andThen {α β σ : Type} (o : Outcome α σ) (k : α → World σ → Outcome β σ) :
    Outcome β σ :=
  match o with
  | Outcome.returned val w => k val w
  | Outcome.died t => Outcome.died t

/-- A library whose calls all return, seen as a library whose calls may not. -/
def Lib.toFaulting {σ : Type} (L : Lib σ) : FaultingLib σ :=
  ⟨fun s => some (L.main_bpf__open_and_load s),
   fun obj s => some (L.main_bpf__create_skeleton obj s),
   fun obj s => some (L.main_bpf__destroy obj s)⟩

namespace Faulting

/-- The call site `main_bpf__open_and_load()`: the call is recorded, whether or not it returns. -/
def call_open_and_load {σ : Type} (L : FaultingLib σ) (w : World σ) : Outcome Ptr σ :=
  match L.main_bpf__open_and_load w.lib with
  | some r => Outcome.returned r.1 ⟨r.2, w.trace ++ [Call.open_and_load]⟩
  | none => Outcome.died (w.trace ++ [Call.open_and_load])

/-- The call site `main_bpf__create_skeleton(obj)`: the call is recorded, whether or not it returns. -/
def call_create_skeleton {σ : Type} (L : FaultingLib σ) (obj : Ptr) (w : World σ) :
    Outcome Int σ :=
  match L.main_bpf__create_skeleton obj w.lib with
  | some r => Outcome.returned r.1 ⟨r.2, w.trace ++ [Call.create_skeleton obj]⟩
  | none => Outcome.died (w.trace ++ [Call.create_skeleton obj])

/-- The call site `main_bpf__destroy(skel)`: the call is recorded, whether or not it returns. -/
def call_destroy {σ : Type} (L : FaultingLib σ) (skel : Ptr) (w : World σ) : Outcome Unit σ :=
  match L.main_bpf__destroy skel w.lib with
  | some s => Outcome.returned () ⟨s, w.trace ++ [Call.destroy skel]⟩
  | none => Outcome.died (w.trace ++ [Call.destroy skel])

/-- The function `open_skel` of wrapper.c against a library whose calls may not return:
```
    struct main_bpf *obj = NULL;
    obj =  main_bpf__open_and_load();
    main_bpf__create_skeleton(obj);
    return obj;
```
There is no check between the statements: `obj` goes to `main_bpf__create_skeleton`
as it came, and the status is discarded. -/
def open_skel {σ : Type} (L : FaultingLib σ) (w : World σ) : Outcome Ptr σ :=
  let obj : Ptr := NULL
  (call_open_and_load L w).andThen fun obj w1 =>
  (call_create_skeleton L obj w1).andThen fun _ w2 =>
  Outcome.returned obj w2

/-- The function `destroy_skel` of wrapper.c against a library whose calls may not return:
```
    main_bpf__destroy(skel);
``` -/
def destroy_skel {σ : Type} (L : FaultingLib σ) (skel : Ptr) (w : World σ) : Outcome Unit σ :=
  call_destroy L skel w

/-- The expression `destroy_skel(open_skel())`: the argument is evaluated first,
and `destroy_skel` is entered only if `open_skel` returned. -/
def destroy_skel_open_skel {σ : Type} (L : FaultingLib σ) (w : World σ) : Outcome Unit σ :=
  (open_skel L w).andThen fun skel w1 => destroy_skel L skel w1

/-- The library calls made by a run started in `before`. -/
def calls_made {α σ : Type} (before : World σ) (o : Outcome α σ) : List Call :=
  o.trace.drop before.trace.length

end Faulting

/-- A library with prescribed outcomes whose skeleton construction stores through
the handle it is given: `main_bpf__open_and_load` yields `h`,
`main_bpf__create_skeleton` does not return on the null handle and yields `status`
on any other, `main_bpf__destroy` returns on every handle; the state counts the
calls that returned. -/
def nullFaultLib (h : Ptr) (status : Int) : FaultingLib Nat :=
  ⟨fun n => some (h, n + 1),
   fun obj n => if obj = NULL then none else some (status, n + 1),
   fun _ n => some (n + 1)⟩

/-! ## Basic facts about the two wrapper functions -/

/-- The value of `open_skel` is the handle `main_bpf__open_and_load` produced. -/
theorem open_skel_fst {σ : Type} (L : Lib σ) (w : World σ) :
    (open_skel L w).1 = acquired L w := rfl

/-- The trace after `open_skel` is the trace before it followed by the two calls. -/
theorem open_skel_trace_eq {σ : Type} (L : Lib σ) (w : World σ) :
    (open_skel L w).2.trace
      = w.trace ++ [Call.open_and_load, Call.create_skeleton (acquired L w)] := by
  simp [open_skel, call_open_and_load, call_create_skeleton, acquired]

/-- The library state after `open_skel` is the one left by the two entry points. -/
theorem open_skel_lib_eq {σ : Type} (L : Lib σ) (w : World σ) :
    (open_skel L w).2.lib
      = (L.main_bpf__create_skeleton (acquired L w)
          (L.main_bpf__open_and_load w.lib).2).2 := rfl

/-- The trace after `destroy_skel` is the trace before it followed by one destroy call. -/
theorem destroy_skel_trace_eq {σ : Type} (L : Lib σ) (skel : Ptr) (w : World σ) :
    (destroy_skel L skel w).trace = w.trace ++ [Call.destroy skel] := rfl

/-- The library state after `destroy_skel` is the one left by `main_bpf__destroy`. -/
theorem destroy_skel_lib_eq {σ : Type} (L : Lib σ) (skel : Ptr) (w : World σ) :
    (destroy_skel L skel w).lib = L.main_bpf__destroy skel w.lib := rfl

/-- The calls made by `open_skel`, whatever was recorded before it ran. -/
theorem calls_made_open_skel {σ : Type} (L : Lib σ) (w : World σ) :
    calls_made w (open_skel L w).2
      = [Call.open_and_load, Call.create_skeleton (acquired L w)] := by
  simp [calls_made, open_skel_trace_eq]

/-- The calls made by `destroy_skel`, whatever was recorded before it ran. -/
theorem calls_made_destroy_skel {σ : Type} (L : Lib σ) (skel : Ptr) (w : World σ) :
    calls_made w (destroy_skel L skel w) = [Call.destroy skel] := by
  simp [calls_made, destroy_skel_trace_eq]

/-- On a library whose calls all return, `Faulting.open_skel` is `open_skel`. -/
theorem faulting_open_skel_toFaulting {σ : Type} (L : Lib σ) (w : World σ) :
    Faulting.open_skel L.toFaulting w
      = Outcome.returned (open_skel L w).1 (open_skel L w).2 := rfl

/-- On a library whose calls all return, `Faulting.destroy_skel` is `destroy_skel`. -/
theorem faulting_destroy_skel_toFaulting {σ : Type} (L : Lib σ) (skel : Ptr) (w : World σ) :
    Faulting.destroy_skel L.toFaulting skel w
      = Outcome.returned () (destroy_skel L skel w) := rfl

/-- When both library calls return, `open_skel` returns the acquired handle in the
state left by the second call. -/
theorem faulting_open_skel_returned {σ : Type} (L : FaultingLib σ) (w : World σ)
    (h : Ptr) (s1 : σ) (status : Int) (s2 : σ)
    (hopen : L.main_bpf__open_and_load w.lib = some (h, s1))
    (hcreate : L.main_bpf__create_skeleton h s1 = some (status, s2)) :
    Faulting.open_skel L w
      = Outcome.returned h
          ⟨s2, w.trace ++ [Call.open_and_load, Call.create_skeleton h]⟩ := by
  simp [Faulting.open_skel, Faulting.call_open_and_load, Faulting.call_create_skeleton,
    Outcome.andThen, hopen, hcreate]

/-- When `main_bpf__open_and_load` does not return, `open_skel` dies in that call. -/
theorem faulting_open_skel_died_in_open {σ : Type} (L : FaultingLib σ) (w : World σ)
    (hopen : L.main_bpf__open_and_load w.lib = none) :
    Faulting.open_skel L w = Outcome.died (w.trace ++ [Call.open_and_load]) := by
  simp [Faulting.open_skel, Faulting.call_open_and_load, Outcome.andThen, hopen]

/-- When `main_bpf__create_skeleton` does not return, `open_skel` dies in that call. -/
theorem faulting_open_skel_died_in_create {σ : Type} (L : FaultingLib σ) (w : World σ)
    (h : Ptr) (s1 : σ)
    (hopen : L.main_bpf__open_and_load w.lib = some (h, s1))
    (hcreate : L.main_bpf__create_skeleton h s1 = none) :
    Faulting.open_skel L w
      = Outcome.died (w.trace ++ [Call.open_and_load, Call.create_skeleton h]) := by
  simp [Faulting.open_skel, Faulting.call_open_and_load, Faulting.call_create_skeleton,
    Outcome.andThen, hopen, hcreate]

/-! ## Properties of the acquire and release functions -/

/-- C1: for every library, every state it is in (hence every handle `h` that
`main_bpf__open_and_load` yields, null included, and every status that
`main_bpf__create_skeleton` yields) `open_skel` returns exactly the handle the
open-and-load call produced; for the library with prescribed outcomes `h` and
`status` that value is `h`, for every `h` and every `status`. -/
theorem open_skel_returns_acquired_handle :
    (∀ (σ : Type) (L : Lib σ) (w : World σ),
        (open_skel L w).1 = (L.main_bpf__open_and_load w.lib).1) ∧
    (∀ (h : Ptr) (status : Int) (w : World Nat),
        acquired (fixedLib h status) w = h ∧
        skeleton_status (fixedLib h status) w = status ∧
        (open_skel (fixedLib h status) w).1 = h) :=
  ⟨fun _ _ _ => rfl, fun _ _ _ => ⟨rfl, rfl, rfl⟩⟩

/-- C2 (as stated, refuted): with `main_bpf__open_and_load` yielding the non-null
handle 4096 and `main_bpf__create_skeleton` yielding the error status -12, the
library reports failure and yet `open_skel` does not return null. -/
theorem open_skel_null_on_failure_counterexample :
    ¬ ((acquired (fixedLib 4096 (-12)) startWorld = NULL ∨
          skeleton_status (fixedLib 4096 (-12)) startWorld ≠ 0) →
        (open_skel (fixedLib 4096 (-12)) startWorld).1 = NULL) := by
  decide

/-- C2 (amended): in every run in which both library calls return, `open_skel`
returns exactly the handle `main_bpf__open_and_load` produced, in the state left by
`main_bpf__create_skeleton` and whatever status that call yielded, zero or not: the
returned value is null if and only if `main_bpf__open_and_load` returned null, so a
non-zero status on a non-null handle leaves the non-null handle as the result. -/
theorem open_skel_result_ignores_status {σ : Type} (L : FaultingLib σ) (w : World σ)
    (h : Ptr) (s1 : σ) (status : Int) (s2 : σ)
    (hopen : L.main_bpf__open_and_load w.lib = some (h, s1))
    (hcreate : L.main_bpf__create_skeleton h s1 = some (status, s2)) :
    Faulting.open_skel L w
      = Outcome.returned h
          ⟨s2, w.trace ++ [Call.open_and_load, Call.create_skeleton h]⟩ ∧
    (Faulting.open_skel L w).value = some h ∧
    ((Faulting.open_skel L w).value = some NULL ↔ h = NULL) ∧
    (h ≠ NULL → status ≠ 0 → (Faulting.open_skel L w).value ≠ some NULL) := by
  have hrun := faulting_open_skel_returned L w h s1 status s2 hopen hcreate
  refine ⟨hrun, ?_, ?_, ?_⟩
  · rw [hrun]; rfl
  · rw [hrun]
    constructor
    · intro hval
      exact (Option.some.inj hval)
    · intro hnull
      rw [hnull]; rfl
  · intro hne _ hval
    rw [hrun] at hval
    exact hne (Option.some.inj hval)

/-- Witness for C2 (amended): the non-null handle 4096 with the error status -12 on a
library whose skeleton construction does not return on null, and the null handle
with the error status -22 on a library whose calls all return. -/
theorem open_skel_result_ignores_status_witness :
    (Faulting.open_skel (nullFaultLib 4096 (-12)) startWorld
        = Outcome.returned 4096 ⟨2, [Call.open_and_load, Call.create_skeleton 4096]⟩ ∧
      (Faulting.open_skel (nullFaultLib 4096 (-12)) startWorld).value = some 4096 ∧
      ((Faulting.open_skel (nullFaultLib 4096 (-12)) startWorld).value = some NULL
        ↔ 4096 = NULL) ∧
      (4096 ≠ NULL → (-12 : Int) ≠ 0 →
        (Faulting.open_skel (nullFaultLib 4096 (-12)) startWorld).value ≠ some NULL)) ∧
    (Faulting.open_skel (fixedLib NULL (-22)).toFaulting startWorld
        = Outcome.returned NULL ⟨2, [Call.open_and_load, Call.create_skeleton NULL]⟩ ∧
      (Faulting.open_skel (fixedLib NULL (-22)).toFaulting startWorld).value = some NULL ∧
      ((Faulting.open_skel (fixedLib NULL (-22)).toFaulting startWorld).value = some NULL
        ↔ NULL = NULL) ∧
      (NULL ≠ NULL → (-22 : Int) ≠ 0 →
        (Faulting.open_skel (fixedLib NULL (-22)).toFaulting startWorld).value
          ≠ some NULL)) :=
  ⟨open_skel_result_ignores_status (nullFaultLib 4096 (-12)) startWorld 4096 1 (-12) 2
      rfl rfl,
   open_skel_result_ignores_status (fixedLib NULL (-22)).toFaulting startWorld NULL 1 (-22) 2
      rfl rfl⟩

/-- C3: for every handle `skel`, null included, `destroy_skel skel` makes exactly
one library call, `main_bpf__destroy skel`: the calls it makes are the one-element
list holding that call, the library is left in the state `main_bpf__destroy skel`
leaves it in, and this is so for the null handle as well (no check skips the call). -/
theorem destroy_skel_single_destroy_call {σ : Type} (L : Lib σ) (skel : Ptr) (w : World σ) :
    calls_made w (destroy_skel L skel w) = [Call.destroy skel] ∧
    (destroy_skel L skel w).trace = w.trace ++ [Call.destroy skel] ∧
    (destroy_skel L skel w).lib = L.main_bpf__destroy skel w.lib ∧
    calls_made w (destroy_skel L NULL w) = [Call.destroy NULL] ∧
    (destroy_skel L NULL w).lib = L.main_bpf__destroy NULL w.lib :=
  ⟨calls_made_destroy_skel L skel w, rfl, rfl, calls_made_destroy_skel L NULL w, rfl⟩

/-- C4: in every run in which `main_bpf__open_and_load` returns a non-null handle
and `main_bpf__create_skeleton` reports success (status 0), `open_skel` returns a
non-null handle. -/
theorem open_skel_success_nonnull {σ : Type} (L : Lib σ) (w : World σ)
    (hobj : acquired L w ≠ NULL) (hstatus : skeleton_status L w = 0) :
    (open_skel L w).1 ≠ NULL := by
  rw [open_skel_fst]
  exact hobj

/-- Witness for C4: open-and-load yields the handle 4096, skeleton construction yields 0. -/
theorem open_skel_success_nonnull_witness :
    acquired (fixedLib 4096 0) startWorld ≠ NULL ∧
    skeleton_status (fixedLib 4096 0) startWorld = 0 ∧
    (open_skel (fixedLib 4096 0) startWorld).1 ≠ NULL :=
  ⟨by decide, by decide,
    open_skel_success_nonnull (fixedLib 4096 0) startWorld (by decide) (by decide)⟩

/-- C5: for every outcome `h` of `main_bpf__open_and_load`, null included, the
library calls made by `open_skel` are exactly `main_bpf__open_and_load()` followed
by `main_bpf__create_skeleton(h)`; the library ends in the state reached by running
these two entry points in that order, the second on the unchecked result of the
first; `main_bpf__destroy` is not among the calls. -/
theorem open_skel_call_sequence {σ : Type} (L : Lib σ) (w : World σ) :
    calls_made w (open_skel L w).2
      = [Call.open_and_load, Call.create_skeleton (L.main_bpf__open_and_load w.lib).1] ∧
    (open_skel L w).2.lib
      = (L.main_bpf__create_skeleton (L.main_bpf__open_and_load w.lib).1
          (L.main_bpf__open_and_load w.lib).2).2 ∧
    (∀ p : Ptr, Call.destroy p ∉ calls_made w (open_skel L w).2) := by
  refine ⟨calls_made_open_skel L w, rfl, ?_⟩
  intro p
  simp [calls_made_open_skel]

/-- C6: two runs of `open_skel` in which `main_bpf__open_and_load` returns the same
handle return the same value, whatever the two libraries, their states and the
statuses `main_bpf__create_skeleton` yields in the two runs. -/
theorem open_skel_status_independent {σ τ : Type} (L : Lib σ) (M : Lib τ)
    (w : World σ) (v : World τ) (hsame : acquired L w = acquired M v) :
    (open_skel L w).1 = (open_skel M v).1 := by
  rw [open_skel_fst, open_skel_fst, hsame]

/-- Witness for C6: the same handle 4096 with the statuses 0 and -12. -/
theorem open_skel_status_independent_witness :
    acquired (fixedLib 4096 0) startWorld = acquired (fixedLib 4096 (-12)) startWorld ∧
    skeleton_status (fixedLib 4096 0) startWorld
      ≠ skeleton_status (fixedLib 4096 (-12)) startWorld ∧
    (open_skel (fixedLib 4096 0) startWorld).1
      = (open_skel (fixedLib 4096 (-12)) startWorld).1 :=
  ⟨by decide, by decide,
    open_skel_status_independent (fixedLib 4096 0) (fixedLib 4096 (-12))
      startWorld startWorld (by decide)⟩

/-- C7 (as stated, refuted): with `main_bpf__open_and_load` yielding null and a
library whose `main_bpf__create_skeleton` does not return on the null handle,
`destroy_skel(open_skel())` makes the calls `main_bpf__open_and_load()` and
`main_bpf__create_skeleton(NULL)` and no more: `main_bpf__destroy` is never called. -/
theorem lifecycle_call_sequence_counterexample :
    ¬ (Faulting.calls_made startWorld
          (Faulting.destroy_skel_open_skel (nullFaultLib NULL 0) startWorld)
        = [Call.open_and_load, Call.create_skeleton NULL, Call.destroy NULL]) ∧
    Faulting.calls_made startWorld
        (Faulting.destroy_skel_open_skel (nullFaultLib NULL 0) startWorld)
      = [Call.open_and_load, Call.create_skeleton NULL] := by
  decide

/-- C7 (amended): for every outcome `h` of `main_bpf__open_and_load` on which
`main_bpf__create_skeleton` returns, `destroy_skel(open_skel())` makes exactly the
library calls `main_bpf__open_and_load()`, `main_bpf__create_skeleton(h)`,
`main_bpf__destroy(h)`, in that order, the destroy call occurring once; the library
entry point `main_bpf__destroy` is run on `h` in the state the first two calls
left, and when it returns the run returns in the state it leaves. -/
theorem lifecycle_calls_when_acquisition_returns {σ : Type} (L : FaultingLib σ) (w : World σ)
    (h : Ptr) (s1 : σ) (status : Int) (s2 : σ)
    (hopen : L.main_bpf__open_and_load w.lib = some (h, s1))
    (hcreate : L.main_bpf__create_skeleton h s1 = some (status, s2)) :
    Faulting.calls_made w (Faulting.destroy_skel_open_skel L w)
      = [Call.open_and_load, Call.create_skeleton h, Call.destroy h] ∧
    (Faulting.calls_made w (Faulting.destroy_skel_open_skel L w)).count (Call.destroy h) = 1 ∧
    Faulting.destroy_skel_open_skel L w
      = (match L.main_bpf__destroy h s2 with
         | some s3 =>
           Outcome.returned ()
             ⟨s3, w.trace ++ [Call.open_and_load, Call.create_skeleton h, Call.destroy h]⟩
         | none =>
           Outcome.died
             (w.trace ++ [Call.open_and_load, Call.create_skeleton h, Call.destroy h])) := by
  have hrun : Faulting.destroy_skel_open_skel L w
      = (match L.main_bpf__destroy h s2 with
         | some s3 =>
           Outcome.returned ()
             ⟨s3, w.trace ++ [Call.open_and_load, Call.create_skeleton h, Call.destroy h]⟩
         | none =>
           Outcome.died
             (w.trace ++ [Call.open_and_load, Call.create_skeleton h, Call.destroy h])) := by
    unfold Faulting.destroy_skel_open_skel
    rw [faulting_open_skel_returned L w h s1 status s2 hopen hcreate]
    simp only [Outcome.andThen, Faulting.destroy_skel, Faulting.call_destroy]
    cases L.main_bpf__destroy h s2 <;> simp
  have hcalls : Faulting.calls_made w (Faulting.destroy_skel_open_skel L w)
      = [Call.open_and_load, Call.create_skeleton h, Call.destroy h] := by
    rw [hrun]
    cases L.main_bpf__destroy h s2 <;> simp [Faulting.calls_made, Outcome.trace]
  refine ⟨hcalls, ?_, hrun⟩
  rw [hcalls]
  simp

/-- Witness for C7 (amended): the handle 4096 and the status 0, on a library whose
skeleton construction does not return on null. -/
theorem lifecycle_calls_when_acquisition_returns_witness :
    Faulting.calls_made startWorld
        (Faulting.destroy_skel_open_skel (nullFaultLib 4096 0) startWorld)
      = [Call.open_and_load, Call.create_skeleton 4096, Call.destroy 4096] ∧
    (Faulting.calls_made startWorld
        (Faulting.destroy_skel_open_skel (nullFaultLib 4096 0) startWorld)).count
      (Call.destroy 4096) = 1 ∧
    Faulting.destroy_skel_open_skel (nullFaultLib 4096 0) startWorld
      = Outcome.returned ()
          ⟨3, [Call.open_and_load, Call.create_skeleton 4096, Call.destroy 4096]⟩ :=
  lifecycle_calls_when_acquisition_returns (nullFaultLib 4096 0) startWorld 4096 1 0 2 rfl rfl

end Wrapper
